import Mathlib

/-!
# Verification of the Katzenpost wire-protocol KEM key-management layer

Shallow embedding of `kem.go` (package `wire`): the `publicKey`, `privateKey`
and `scheme` types and their methods, with the external collaborators
abstracted at the capability boundary the code uses them through:

* the nyquist KEM primitive (`kem.KEM`, `kem.PublicKey`, `kem.Keypair`) is a
  `KEM` record of parse/generate functions; a parsed `kem.PublicKey` is
  represented by its raw bytes (the only observation the wire layer makes of
  it is `Bytes()`), and a `kem.Keypair` by its embedded public component's
  bytes together with the result of `MarshalBinary` (`none` models a
  marshalling failure, on which the Go code panics);
* `blake2b.Sum256` (golang.org/x/crypto) is an arbitrary function
  `H : List Nat → Hash32`;
* `base64.StdEncoding.DecodeString` (Go stdlib) is an arbitrary fallible
  decoder `String → Except String (List Nat)`;
* file reading plus `pem.Decode` (Go stdlib) is abstracted by handing the
  PEM-file loaders the decode outcome directly, an `Option Block`
  (`none` models "no PEM block found"); a write performed by `os.WriteFile`
  is reified as a `FileWrite` value recording path, block and permission bits;
* `seec.GenKeyPRPAES(r, 256)` is abstracted by its outcome,
  an `Except String (List Nat)`.

A Go byte is modelled as `Nat`; a byte slice as `List Nat`. A Go `panic` is
modelled as `Option.none` in the result (the function returns no value at
all, as opposed to returning an error value through an `Except`).
-/

/-- A 32-byte value, modelling Go's `[32]byte`. -/
abbrev Hash32 := { l : List Nat // l.length = 32 }

/-- The Go zero value of `[32]byte`. -/
def zeroHash : Hash32 := ⟨List.replicate 32 0, List.length_replicate 32 0⟩

/-- Go's `strings.ToUpper`, character-wise upper-casing (the type tags the
code compares are ASCII, where `Char.toUpper` agrees with Go's mapping). -/
def goToUpper (s : String) : String := ⟨s.data.map Char.toUpper⟩

/-- Modelled from the spec: `utils.CtIsZero` (from `core/utils`, a package of
this repository that is not under `src/`) — §4.1: "checks the key's raw bytes
are not all-zero (a scrubbed key guard)"; §2: "a guard that refuses to
serialize a key whose raw bytes are already all-zero". It returns `true`
exactly when every byte is zero. -/
def CtIsZero (b : List Nat) : Bool := b.all (fun x => x == 0)

/-- A nyquist `kem.Keypair`, seen through the capability boundary the wire
layer uses: `Public().Bytes()` and `MarshalBinary()` (`none` = the
marshalling step fails, which makes the Go `Bytes()` panic). -/
structure Keypair where
  pubBytes : List Nat
  marshalBinary : Option (List Nat)
deriving DecidableEq

/-- A nyquist `kem.KEM`: algorithm name (`String()`) plus the parse and
generate capabilities. A parsed public key is represented by its raw bytes. -/
structure KEM where
  name : String
  parsePublicKey : List Nat → Except String (List Nat)
  parsePrivateKey : List Nat → Except String Keypair
  generateKeypair : List Nat → Except String Keypair

/-- Error values produced by the wire key layer, tagged by origin:
`decodeError` for a missing/malformed PEM block, `typeMismatch` for a wrong
PEM type tag (carrying the actual and the expected tag, in the order the Go
error message reports them), `scrubbedKey` for the all-zero guard, `kemParse`
for errors returned by the KEM primitive's parsers, and `b64Error` for
base64-decoding failures. -/
inductive KeyError where
  | decodeError (file : String)
  | typeMismatch (actual expected : String)
  | scrubbedKey
  | kemParse (msg : String)
  | b64Error (msg : String)
deriving DecidableEq

/-- A `pem.Block`: type tag and payload bytes. -/
structure Block where
  type : String
  bytes : List Nat
deriving DecidableEq

/-- A file write as performed by `os.WriteFile(f, pem.EncodeToMemory(blk), perm)`,
reified: the path, the PEM block content (type tag and bytes), and the
permission bits. -/
structure FileWrite where
  path : String
  blockType : String
  blockBytes : List Nat
  perm : Nat
deriving DecidableEq

/-- The Go struct `publicKey`: the wrapped `kem.PublicKey` (by its raw
bytes), the `KEM` algorithm, and the cached hash field. -/
structure publicKey where
  publicKey : List Nat
  KEM : KEM
  hash : Hash32

/-- The Go struct `privateKey`: the wrapped `kem.Keypair` and the `KEM`. -/
structure privateKey where
  privateKey : Keypair
  KEM : KEM

/-- Alias for the `publicKey` struct, usable inside its own namespace where
the bare name resolves to the struct's homonymous field. -/
abbrev WirePublicKey := publicKey

/-- Alias for the `privateKey` struct, usable inside its own namespace where
the bare name resolves to the struct's homonymous field. -/
abbrev WirePrivateKey := privateKey

/-- `func (p *publicKey) Bytes() []byte { return p.publicKey.Bytes() }` -/
def publicKey.Bytes (p : WirePublicKey) : List Nat := p.publicKey

/-- `func (p *publicKey) KeyType() string`: `"<ALGONAME> PUBLIC KEY"`,
algorithm name upper-cased. -/
def publicKey.KeyType (p : WirePublicKey) : String :=
  goToUpper p.KEM.name ++ " PUBLIC KEY"

/-- `func (p *publicKey) Equal(publicKey PublicKey) bool`:
`bytes.Equal(publicKey.Bytes(), p.Bytes())`. -/
def publicKey.Equal (p other : WirePublicKey) : Bool :=
  other.Bytes == p.Bytes

/-- `func (p *publicKey) FromBytes(b []byte) error`: parse via the KEM; on
error return it with the receiver unchanged; on success assign the parsed
key into `p.publicKey` (the `hash` and `KEM` fields are untouched). -/
def publicKey.FromBytes (p : WirePublicKey) (b : List Nat) :
    Except KeyError Unit × WirePublicKey :=
  match p.KEM.parsePublicKey b with
  | .error err => (.error (.kemParse err), p)
  | .ok k => (.ok (), { p with publicKey := k })

/-- `func (p *publicKey) Sum256() [32]byte`:
`p.hash = blake2b.Sum256(p.Bytes()); return p.hash`, with `blake2b.Sum256`
abstracted as `H`. Returns the hash together with the updated receiver. -/
def publicKey.Sum256 (H : List Nat → Hash32) (p : WirePublicKey) :
    Hash32 × WirePublicKey :=
  (H p.Bytes, { p with hash := H p.Bytes })

/-- `func (p *publicKey) Reset() { p = nil }` (marked `XXX FIXME` in the
source): the nil assignment targets the method's local copy of the receiver
pointer, so the pointed-to key object is left completely unchanged — the
method is a no-op on the key. -/
def publicKey.Reset (p : WirePublicKey) : WirePublicKey := p

/-- `func (p *publicKey) ToPEMFile(f string) error`: build the canonical type
tag, refuse with the scrubbed-key error if `utils.CtIsZero(p.Bytes())`, else
write the PEM block to `f` with permission `0600`. -/
def publicKey.ToPEMFile (p : WirePublicKey) (f : String) :
    Except KeyError FileWrite :=
  let keyType := goToUpper p.KEM.name ++ " PUBLIC KEY"
  if CtIsZero p.Bytes then .error .scrubbedKey
  else .ok { path := f, blockType := keyType, blockBytes := p.Bytes, perm := 0o600 }

/-- `func (p *privateKey) KeyType() string`: `"<ALGONAME> PRIVATE KEY"`. -/
def privateKey.KeyType (p : WirePrivateKey) : String :=
  goToUpper p.KEM.name ++ " PRIVATE KEY"

/-- `func (p *privateKey) Bytes() []byte`: `p.privateKey.MarshalBinary()`,
panicking when it fails. The Go signature has no error return at all;
`none` models the panic (no value is ever returned), so a marshalling
failure can never surface as an ordinary error value. -/
def privateKey.Bytes (p : WirePrivateKey) : Option (List Nat) :=
  p.privateKey.marshalBinary

/-- `func (p *privateKey) PublicKey() PublicKey`: wraps the keypair's
embedded public component and eagerly fills the hash cache with
`blake2b.Sum256` (abstracted as `H`) of its bytes. -/
def privateKey.PublicKey (H : List Nat → Hash32) (p : WirePrivateKey) : WirePublicKey :=
  { publicKey := p.privateKey.pubBytes
    hash := H p.privateKey.pubBytes
    KEM := p.KEM }

/-- `func (p *privateKey) FromBytes(b []byte) error`: parse via the KEM; on
error return it with the receiver unchanged; on success assign the parsed
keypair into `p.privateKey`. -/
def privateKey.FromBytes (p : WirePrivateKey) (b : List Nat) :
    Except KeyError Unit × WirePrivateKey :=
  match p.KEM.parsePrivateKey b with
  | .error err => (.error (.kemParse err), p)
  | .ok k => (.ok (), { p with privateKey := k })

/-- `func (p *privateKey) Reset() { p = nil }` (marked `XXX FIXME`): same
no-op on the key object as `publicKey.Reset`. -/
def privateKey.Reset (p : WirePrivateKey) : WirePrivateKey := p

/-- `func (p *privateKey) ToPEMFile(f string) error`: calls `p.Bytes()`
(which panics — outer `none` — if the keypair fails to marshal), then the
scrubbed-key guard, then writes the PEM block with permission `0600`. -/
def privateKey.ToPEMFile (p : WirePrivateKey) (f : String) :
    Option (Except KeyError FileWrite) :=
  let keyType := goToUpper p.KEM.name ++ " PRIVATE KEY"
  match p.Bytes with
  | none => none
  | some b =>
    some (if CtIsZero b then .error .scrubbedKey
          else .ok { path := f, blockType := keyType, blockBytes := b, perm := 0o600 })

/-- The Go struct `scheme`, holding the configured `kem.KEM`. -/
structure scheme where
  KEM : KEM

/-- `func (s *scheme) PrivateKeyFromBytes(b []byte) (PrivateKey, error)`:
delegate to `s.KEM.ParsePrivateKey`, wrap on success. -/
def scheme.PrivateKeyFromBytes (s : scheme) (b : List Nat) :
    Except KeyError privateKey :=
  match s.KEM.parsePrivateKey b with
  | .error err => .error (.kemParse err)
  | .ok k => .ok { privateKey := k, KEM := s.KEM }

/-- `func (s *scheme) PublicKeyFromBytes(b []byte) (PublicKey, error)`:
delegate to `s.KEM.ParsePublicKey`, wrap on success (the hash cache field is
left at the Go zero value). -/
def scheme.PublicKeyFromBytes (s : scheme) (b : List Nat) :
    Except KeyError publicKey :=
  match s.KEM.parsePublicKey b with
  | .error err => .error (.kemParse err)
  | .ok k => .ok { publicKey := k, KEM := s.KEM, hash := zeroHash }

/-- `func (s *scheme) PrivateKeyFromPemFile(f string) (PrivateKey, error)`.
`blkOpt` is the outcome of `os.ReadFile` followed by `pem.Decode` (both Go
stdlib): `none` when no PEM block decodes. A `nil` block is the decode
error; a block whose upper-cased type tag differs from
`"<ALGONAME> PRIVATE KEY"` is the type-mismatch error carrying the actual
and the expected tag; otherwise delegate to `PrivateKeyFromBytes`. -/
def scheme.PrivateKeyFromPemFile (s : scheme) (f : String)
    (blkOpt : Option Block) : Except KeyError privateKey :=
  let keyType := goToUpper s.KEM.name ++ " PRIVATE KEY"
  match blkOpt with
  | none => .error (.decodeError f)
  | some blk =>
    if goToUpper blk.type ≠ keyType then .error (.typeMismatch blk.type keyType)
    else s.PrivateKeyFromBytes blk.bytes

/-- `func (s *scheme) PublicKeyFromPemFile(f string) (PublicKey, error)`:
symmetric to `PrivateKeyFromPemFile` with tag `"<ALGONAME> PUBLIC KEY"`. -/
def scheme.PublicKeyFromPemFile (s : scheme) (f : String)
    (blkOpt : Option Block) : Except KeyError publicKey :=
  let keyType := goToUpper s.KEM.name ++ " PUBLIC KEY"
  match blkOpt with
  | none => .error (.decodeError f)
  | some blk =>
    if goToUpper blk.type ≠ keyType then .error (.typeMismatch blk.type keyType)
    else s.PublicKeyFromBytes blk.bytes

/-- `func (s *scheme) UnmarshalTextPublicKey(b []byte) (PublicKey, error)`:
base64-decode (standard alphabet, abstracted as `b64decode`), propagating a
decode failure, then delegate to `PublicKeyFromBytes`. -/
def scheme.UnmarshalTextPublicKey (s : scheme)
    (b64decode : String → Except String (List Nat)) (text : String) :
    Except KeyError publicKey :=
  match b64decode text with
  | .error err => .error (.b64Error err)
  | .ok raw => s.PublicKeyFromBytes raw

/-- `func (s *scheme) UnmarshalTextPrivateKey(b []byte) (PrivateKey, error)`:
symmetric to `UnmarshalTextPublicKey`. -/
def scheme.UnmarshalTextPrivateKey (s : scheme)
    (b64decode : String → Except String (List Nat)) (text : String) :
    Except KeyError privateKey :=
  match b64decode text with
  | .error err => .error (.b64Error err)
  | .ok raw => s.PrivateKeyFromBytes raw

/-- `func (s *scheme) GenerateKeypair(r io.Reader) (PrivateKey, PublicKey)`.
`seecResult` is the outcome of `seec.GenKeyPRPAES(r, 256)` (the seeded
256-bit entropy stream, or its error); a failure there, or in the KEM
primitive's `GenerateKeypair`, panics in Go — modelled as `none`, so no
(partial) key is ever returned on failure. On success the private key wraps
the generated keypair and the returned public key is `privk.PublicKey()`. -/
def scheme.GenerateKeypair (s : scheme) (H : List Nat → Hash32)
    (seecResult : Except String (List Nat)) :
    Option (privateKey × publicKey) :=
  match seecResult with
  | .error _ => none
  | .ok g =>
    match s.KEM.generateKeypair g with
    | .error _ => none
    | .ok k =>
      let privk : privateKey := { KEM := s.KEM, privateKey := k }
      some (privk, privk.PublicKey H)

/-- A small concrete KEM instance used to evaluate the model on closed
inputs: public keys are exactly the 4-byte strings, private keys the 8-byte
strings (whose embedded public component is the first 4 bytes and which
marshal back to themselves). -/
def testKEM : KEM :=
  { name := "TestKEM"
    parsePublicKey := fun b =>
      if b.length = 4 then .ok b else .error "invalid public key"
    parsePrivateKey := fun b =>
      if b.length = 8 then .ok ⟨b.take 4, some b⟩ else .error "invalid private key"
    generateKeypair := fun g =>
      if g.length ≥ 8 then .ok ⟨g.take 4, some (g.take 8)⟩ else .error "entropy too short" }

/-- A concrete public key over `testKEM` with non-zero raw bytes. -/
def testPub : publicKey :=
  { publicKey := [1, 2, 3, 4], KEM := testKEM, hash := zeroHash }

/-- A concrete private key over `testKEM`. -/
def testPriv : privateKey :=
  { privateKey := ⟨[1, 2, 3, 4], some [1, 2, 3, 4, 5, 6, 7, 8]⟩, KEM := testKEM }

/-- A concrete all-zero public key over `testKEM`. -/
def testPubZero : publicKey :=
  { publicKey := [0, 0, 0, 0], KEM := testKEM, hash := zeroHash }

/-- A concrete hash function standing in for `blake2b.Sum256` in closed
evaluations: truncate/pad the input to 32 bytes. -/
def testHash (b : List Nat) : Hash32 :=
  ⟨(b ++ List.replicate 32 0).take 32, by
    simp [List.length_take, List.length_append]⟩

/-- `CtIsZero b` is `true` exactly when every byte of `b` is zero. -/
theorem CtIsZero_eq_true_iff (b : List Nat) :
    CtIsZero b = true ↔ ∀ x ∈ b, x = 0 := by
  simp [CtIsZero]

/-- `CtIsZero b` is `false` exactly when some byte of `b` is non-zero. -/
theorem CtIsZero_eq_false_iff (b : List Nat) :
    CtIsZero b = false ↔ ∃ x ∈ b, x ≠ 0 := by
  simp [CtIsZero]

/-- C1: the claim says that after `Reset()` a subsequent `ToPEMFile` on the
same key fails with the scrubbed-key error. The code violates it: `Reset`
assigns nil to the method's local receiver copy (marked `XXX FIXME` in the
source), leaving the key bytes intact, so on any key with non-zero bytes
`ToPEMFile` after `Reset` succeeds and writes the key out. Evaluated at the
failing inputs `testPub` (raw bytes `[1,2,3,4]`) and `testPriv`. -/
theorem C1_reset_then_topemfile_succeeds :
    (testPub.Reset).ToPEMFile "key.pem" =
        .ok ⟨"key.pem", "TESTKEM PUBLIC KEY", [1, 2, 3, 4], 0o600⟩ ∧
    (testPriv.Reset).ToPEMFile "key2.pem" =
        some (.ok ⟨"key2.pem", "TESTKEM PRIVATE KEY",
                   [1, 2, 3, 4, 5, 6, 7, 8], 0o600⟩) :=
  ⟨rfl, rfl⟩

/-- C2: on every PEM load whose decoded block's upper-cased type tag differs
from the scheme's expected `"<ALGONAME> PRIVATE KEY"` (resp.
`"<ALGONAME> PUBLIC KEY"`) tag, the loader fails with a type-mismatch error
carrying the actual and the expected tags and returns no key; in particular
(third conjunct) a block tagged `"TESTKEM PUBLIC KEY"` whose bytes would
parse fine as a private key is rejected by the private-key loader. -/
theorem C2_pem_type_tag_mismatch_fails :
    (∀ (s : scheme) (f : String) (blk : Block),
        goToUpper blk.type ≠ goToUpper s.KEM.name ++ " PRIVATE KEY" →
        s.PrivateKeyFromPemFile f (some blk) =
          .error (.typeMismatch blk.type (goToUpper s.KEM.name ++ " PRIVATE KEY"))) ∧
    (∀ (s : scheme) (f : String) (blk : Block),
        goToUpper blk.type ≠ goToUpper s.KEM.name ++ " PUBLIC KEY" →
        s.PublicKeyFromPemFile f (some blk) =
          .error (.typeMismatch blk.type (goToUpper s.KEM.name ++ " PUBLIC KEY"))) ∧
    (⟨testKEM⟩ : scheme).PrivateKeyFromPemFile "pub.pem"
        (some ⟨"TESTKEM PUBLIC KEY", [1, 2, 3, 4, 5, 6, 7, 8]⟩) =
      .error (.typeMismatch "TESTKEM PUBLIC KEY" "TESTKEM PRIVATE KEY") := by
  refine ⟨?_, ?_, ?_⟩
  · intro s f blk h
    simp [scheme.PrivateKeyFromPemFile, h]
  · intro s f blk h
    simp [scheme.PublicKeyFromPemFile, h]
  · rfl

/-- Witness for C2 at a concrete mismatching block. -/
theorem C2_witness :
    (⟨testKEM⟩ : scheme).PrivateKeyFromPemFile "k.pem" (some ⟨"FOO", []⟩) =
      .error (.typeMismatch "FOO" "TESTKEM PRIVATE KEY") :=
  C2_pem_type_tag_mismatch_fails.1 ⟨testKEM⟩ "k.pem" ⟨"FOO", []⟩ (by decide)

/-- C3: `ToPEMFile` on a key whose raw bytes are all zero fails with the
scrubbed-key error and performs no write; on a key with some non-zero byte
it succeeds with a write of the PEM block under the canonical type tag with
permission mode `0600` — for public keys, and for private keys whose
`Bytes()` returns (does not panic). -/
theorem C3_topemfile_scrub_guard_and_write :
    (∀ (p : publicKey) (f : String),
        ((∀ x ∈ p.Bytes, x = 0) → p.ToPEMFile f = .error .scrubbedKey) ∧
        ((∃ x ∈ p.Bytes, x ≠ 0) →
          p.ToPEMFile f = .ok ⟨f, p.KeyType, p.Bytes, 0o600⟩)) ∧
    (∀ (q : privateKey) (f : String) (b : List Nat), q.Bytes = some b →
        ((∀ x ∈ b, x = 0) → q.ToPEMFile f = some (.error .scrubbedKey)) ∧
        ((∃ x ∈ b, x ≠ 0) →
          q.ToPEMFile f = some (.ok ⟨f, q.KeyType, b, 0o600⟩))) := by
  constructor
  · intro p f
    constructor
    · intro h
      simp [publicKey.ToPEMFile, (CtIsZero_eq_true_iff _).mpr h]
    · intro h
      simp [publicKey.ToPEMFile, (CtIsZero_eq_false_iff _).mpr h, publicKey.KeyType]
  · intro q f b hb
    constructor
    · intro h
      simp [privateKey.ToPEMFile, hb, (CtIsZero_eq_true_iff _).mpr h]
    · intro h
      simp [privateKey.ToPEMFile, hb, (CtIsZero_eq_false_iff _).mpr h,
        privateKey.KeyType]

/-- Witness for C3: the scrubbed branch at an all-zero key and the writing
branch at `testPub` and `testPriv`. -/
theorem C3_witness :
    testPubZero.ToPEMFile "z.pem" = .error .scrubbedKey ∧
    testPub.ToPEMFile "p.pem" =
      .ok ⟨"p.pem", "TESTKEM PUBLIC KEY", [1, 2, 3, 4], 0o600⟩ ∧
    testPriv.ToPEMFile "q.pem" =
      some (.ok ⟨"q.pem", "TESTKEM PRIVATE KEY", [1, 2, 3, 4, 5, 6, 7, 8], 0o600⟩) := by
  refine ⟨(C3_topemfile_scrub_guard_and_write.1 testPubZero "z.pem").1 (by decide),
    ?_, ?_⟩
  · have h := (C3_topemfile_scrub_guard_and_write.1 testPub "p.pem").2
      ⟨1, by decide, by decide⟩
    simpa using h
  · have h := (C3_topemfile_scrub_guard_and_write.2 testPriv "q.pem"
      [1, 2, 3, 4, 5, 6, 7, 8] rfl).2 ⟨1, by decide, by decide⟩
    simpa using h

/-- C4: `Equal` is true exactly when the two keys' raw byte sequences are
identical, and it ignores algorithm identity: two keys over KEMs with
different names but identical bytes compare equal. -/
theorem C4_equal_iff_same_bytes :
    ∀ a b : publicKey,
      (a.Equal b = true ↔ a.Bytes = b.Bytes) ∧
      (a.KEM.name ≠ b.KEM.name → a.Bytes = b.Bytes → a.Equal b = true) := by
  intro a b
  constructor
  · constructor
    · intro h
      exact (beq_iff_eq.mp h).symm
    · intro h
      simp [publicKey.Equal, h]
  · intro _ h
    simp [publicKey.Equal, h]

/-- Witness for C4: two concrete keys with the same bytes over KEMs with
different names compare equal, and `Equal` agrees with byte equality. -/
theorem C4_witness :
    testPub.Equal
      { publicKey := [1, 2, 3, 4],
        KEM := { testKEM with name := "OtherKEM" },
        hash := zeroHash } = true ∧
    (testPub.Equal testPubZero = true ↔ testPub.Bytes = testPubZero.Bytes) :=
  ⟨(C4_equal_iff_same_bytes testPub _).2 (by decide) rfl,
   (C4_equal_iff_same_bytes testPub testPubZero).1⟩

/-- C5: round-trip. If the KEM primitive honours its parse/serialize
contract at the key in question (parsing `pub.Bytes()` returns a public key
with the same bytes; parsing a marshalled keypair returns a keypair that
marshals to the same bytes), then `PublicKeyFromBytes (pub.Bytes())`
succeeds with a key `Equal` to `pub` (in both orders), and a private key
reconstructed by `PrivateKeyFromBytes` from `priv.Bytes()` serializes back
to the same bytes. -/
theorem C5_roundtrip_frombytes :
    (∀ (s : scheme) (pub : publicKey),
        s.KEM.parsePublicKey pub.Bytes = .ok pub.Bytes →
        ∃ pk, s.PublicKeyFromBytes pub.Bytes = .ok pk ∧
          pk.Equal pub = true ∧ pub.Equal pk = true) ∧
    (∀ (s : scheme) (priv : privateKey) (b : List Nat) (kp : Keypair),
        priv.Bytes = some b →
        s.KEM.parsePrivateKey b = .ok kp →
        kp.marshalBinary = some b →
        ∃ p2, s.PrivateKeyFromBytes b = .ok p2 ∧ p2.Bytes = priv.Bytes) := by
  constructor
  · intro s pub h
    refine ⟨{ publicKey := pub.Bytes, KEM := s.KEM, hash := zeroHash }, ?_, ?_, ?_⟩
    · simp [scheme.PublicKeyFromBytes, h]
    · simp [publicKey.Equal, publicKey.Bytes]
    · simp [publicKey.Equal, publicKey.Bytes]
  · intro s priv b kp hB hP hM
    refine ⟨{ privateKey := kp, KEM := s.KEM }, ?_, ?_⟩
    · simp [scheme.PrivateKeyFromBytes, hP]
    · rw [hB]
      exact hM

/-- Witness for C5 at `testPub`/`testPriv` over `testKEM`, whose parsers
satisfy the round-trip contract on these inputs. -/
theorem C5_witness :
    (∃ pk, (⟨testKEM⟩ : scheme).PublicKeyFromBytes testPub.Bytes = .ok pk ∧
        pk.Equal testPub = true ∧ testPub.Equal pk = true) ∧
    (∃ p2, (⟨testKEM⟩ : scheme).PrivateKeyFromBytes [1, 2, 3, 4, 5, 6, 7, 8] = .ok p2 ∧
        p2.Bytes = testPriv.Bytes) :=
  ⟨C5_roundtrip_frombytes.1 ⟨testKEM⟩ testPub rfl,
   C5_roundtrip_frombytes.2 ⟨testKEM⟩ testPriv [1, 2, 3, 4, 5, 6, 7, 8]
     ⟨[1, 2, 3, 4], some [1, 2, 3, 4, 5, 6, 7, 8]⟩ rfl rfl rfl⟩

/-- C6: for any hash function `H` standing in for `blake2b.Sum256`,
`Sum256()` returns `H` of the key's raw bytes, leaves the raw bytes
unchanged, and a second call on the resulting key returns the same 32-byte
value. -/
theorem C6_sum256_stable :
    ∀ (H : List Nat → Hash32) (p : publicKey),
      (p.Sum256 H).1 = H p.Bytes ∧
      ((p.Sum256 H).2).Bytes = p.Bytes ∧
      (((p.Sum256 H).2).Sum256 H).1 = (p.Sum256 H).1 :=
  fun _ _ => ⟨rfl, rfl, rfl⟩

/-- C7: `GenerateKeypair` returns no value at all (Go panic) when the
entropy-seeding step fails or when the KEM primitive's generation step
fails; when both succeed it returns the private key wrapping the generated
keypair together with exactly that private key's derived `PublicKey()`. -/
theorem C7_generate_keypair_fatal_or_consistent :
    ∀ (s : scheme) (H : List Nat → Hash32) (seecResult : Except String (List Nat)),
      (∀ e, seecResult = .error e → s.GenerateKeypair H seecResult = none) ∧
      (∀ g e, seecResult = .ok g → s.KEM.generateKeypair g = .error e →
        s.GenerateKeypair H seecResult = none) ∧
      (∀ g k, seecResult = .ok g → s.KEM.generateKeypair g = .ok k →
        s.GenerateKeypair H seecResult =
          some ({ privateKey := k, KEM := s.KEM },
            ({ privateKey := k, KEM := s.KEM } : privateKey).PublicKey H)) := by
  intro s H seecResult
  refine ⟨?_, ?_, ?_⟩
  · intro e he
    simp [scheme.GenerateKeypair, he]
  · intro g e hg hk
    simp [scheme.GenerateKeypair, hg, hk]
  · intro g k hg hk
    simp [scheme.GenerateKeypair, hg, hk]

/-- Witness for C7: both failure branches and the success branch over
`testKEM` (seed `[0,1,2,3,4,5,6,7]`). -/
theorem C7_witness :
    (⟨testKEM⟩ : scheme).GenerateKeypair testHash (.error "entropy failure") = none ∧
    (⟨testKEM⟩ : scheme).GenerateKeypair testHash (.ok [0]) = none ∧
    (⟨testKEM⟩ : scheme).GenerateKeypair testHash (.ok [0, 1, 2, 3, 4, 5, 6, 7]) =
      some ({ privateKey := ⟨[0, 1, 2, 3], some [0, 1, 2, 3, 4, 5, 6, 7]⟩,
              KEM := testKEM },
        ({ privateKey := ⟨[0, 1, 2, 3], some [0, 1, 2, 3, 4, 5, 6, 7]⟩,
           KEM := testKEM } : privateKey).PublicKey testHash) :=
  ⟨(C7_generate_keypair_fatal_or_consistent ⟨testKEM⟩ testHash _).1 "entropy failure" rfl,
   (C7_generate_keypair_fatal_or_consistent ⟨testKEM⟩ testHash _).2.1 [0]
     "entropy too short" rfl rfl,
   (C7_generate_keypair_fatal_or_consistent ⟨testKEM⟩ testHash _).2.2
     [0, 1, 2, 3, 4, 5, 6, 7] ⟨[0, 1, 2, 3], some [0, 1, 2, 3, 4, 5, 6, 7]⟩ rfl rfl⟩

/-- C8: for a `privateKey` successfully constructed by
`PrivateKeyFromBytes`, `Bytes()` returns the keypair's serialization
whenever the primitive's `MarshalBinary` yields one, and returns no value at
all (Go panic, modelled `none` — there is no error channel in the `Bytes()`
signature) when the serialization fails. -/
theorem C8_private_bytes_succeeds_or_aborts :
    ∀ (s : scheme) (b : List Nat) (p : privateKey),
      s.PrivateKeyFromBytes b = .ok p →
      (∀ b2, p.privateKey.marshalBinary = some b2 → p.Bytes = some b2) ∧
      (p.privateKey.marshalBinary = none → p.Bytes = none) := by
  intro s b p _
  exact ⟨fun b2 h => h, fun h => h⟩

/-- Witness for C8: the private key built from `[1,...,8]` over `testKEM`
re-serializes to exactly those bytes. -/
theorem C8_witness :
    testPriv.Bytes = some [1, 2, 3, 4, 5, 6, 7, 8] :=
  (C8_private_bytes_succeeds_or_aborts ⟨testKEM⟩ [1, 2, 3, 4, 5, 6, 7, 8]
    testPriv rfl).1 [1, 2, 3, 4, 5, 6, 7, 8] rfl

/-- C9: the text unmarshallers first base64-decode and then delegate to the
binary `FromBytes` path; a base64 failure is returned (tagged as a base64
error, a different `KeyError` constructor than the KEM-parse errors) and no
key is produced, while a base64 success makes the result exactly that of
the corresponding `FromBytes` function on the decoded bytes. -/
theorem C9_unmarshal_text_delegates :
    ∀ (s : scheme) (b64decode : String → Except String (List Nat)) (t : String),
      (∀ e, b64decode t = .error e →
        s.UnmarshalTextPublicKey b64decode t = .error (.b64Error e) ∧
        s.UnmarshalTextPrivateKey b64decode t = .error (.b64Error e) ∧
        ∀ m, (KeyError.b64Error e) ≠ (KeyError.kemParse m)) ∧
      (∀ raw, b64decode t = .ok raw →
        s.UnmarshalTextPublicKey b64decode t = s.PublicKeyFromBytes raw ∧
        s.UnmarshalTextPrivateKey b64decode t = s.PrivateKeyFromBytes raw) := by
  intro s b64decode t
  constructor
  · intro e he
    refine ⟨?_, ?_, ?_⟩
    · simp [scheme.UnmarshalTextPublicKey, he]
    · simp [scheme.UnmarshalTextPrivateKey, he]
    · intro m h
      exact KeyError.noConfusion h
  · intro raw hraw
    constructor
    · simp [scheme.UnmarshalTextPublicKey, hraw]
    · simp [scheme.UnmarshalTextPrivateKey, hraw]

/-- A concrete base64 decoder outcome for the C9 witness: fails on `"!"`,
succeeds with 4 bytes on everything else. -/
def testB64 (t : String) : Except String (List Nat) :=
  if t = "!" then .error "illegal base64 data" else .ok [1, 2, 3, 4]

/-- Witness for C9: both the failing and the succeeding base64 branch over
`testKEM`. -/
theorem C9_witness :
    (⟨testKEM⟩ : scheme).UnmarshalTextPublicKey testB64 "!" =
        .error (.b64Error "illegal base64 data") ∧
    (⟨testKEM⟩ : scheme).UnmarshalTextPrivateKey testB64 "!" =
        .error (.b64Error "illegal base64 data") ∧
    (⟨testKEM⟩ : scheme).UnmarshalTextPublicKey testB64 "AQIDBA==" =
        (⟨testKEM⟩ : scheme).PublicKeyFromBytes [1, 2, 3, 4] :=
  ⟨((C9_unmarshal_text_delegates ⟨testKEM⟩ testB64 "!").1 "illegal base64 data" rfl).1,
   ((C9_unmarshal_text_delegates ⟨testKEM⟩ testB64 "!").1 "illegal base64 data" rfl).2.1,
   ((C9_unmarshal_text_delegates ⟨testKEM⟩ testB64 "AQIDBA==").2 [1, 2, 3, 4] rfl).1⟩

/-- C10: the in-place `FromBytes` methods assign the newly parsed value only
on a successful parse: when the KEM primitive rejects the bytes, the parse
error is returned and the receiver — including any previously held parsed
value — is unchanged; on success the receiver holds exactly the parsed
value (all other fields untouched). -/
theorem C10_frombytes_preserves_state_on_error :
    ∀ (p : publicKey) (q : privateKey) (b : List Nat),
      (∀ e, p.KEM.parsePublicKey b = .error e →
        p.FromBytes b = (.error (.kemParse e), p)) ∧
      (∀ k, p.KEM.parsePublicKey b = .ok k →
        p.FromBytes b = (.ok (), { p with publicKey := k })) ∧
      (∀ e, q.KEM.parsePrivateKey b = .error e →
        q.FromBytes b = (.error (.kemParse e), q)) ∧
      (∀ k, q.KEM.parsePrivateKey b = .ok k →
        q.FromBytes b = (.ok (), { q with privateKey := k })) := by
  intro p q b
  refine ⟨?_, ?_, ?_, ?_⟩
  · intro e he
    simp [publicKey.FromBytes, he]
  · intro k hk
    simp [publicKey.FromBytes, hk]
  · intro e he
    simp [privateKey.FromBytes, he]
  · intro k hk
    simp [privateKey.FromBytes, hk]

/-- Witness for C10: `testPub` keeps its previously parsed bytes when fed a
rejected input, and is updated when fed an accepted one; likewise
`testPriv`. -/
theorem C10_witness :
    testPub.FromBytes [9, 9] = (.error (.kemParse "invalid public key"), testPub) ∧
    testPub.FromBytes [9, 9, 9, 9] =
      (.ok (), { testPub with publicKey := [9, 9, 9, 9] }) ∧
    testPriv.FromBytes [9, 9] = (.error (.kemParse "invalid private key"), testPriv) :=
  ⟨(C10_frombytes_preserves_state_on_error testPub testPriv [9, 9]).1
      "invalid public key" rfl,
   (C10_frombytes_preserves_state_on_error testPub testPriv [9, 9, 9, 9]).2.1
      [9, 9, 9, 9] rfl,
   (C10_frombytes_preserves_state_on_error testPub testPriv [9, 9]).2.2.1
      "invalid private key" rfl⟩
